import Mathlib

/-!
# Verification of the rmnd_lca electricity-market update layer

Shallow embedding of `src/rmnd_lca/data_collection.py` and
`src/rmnd_lca/electricity.py`.

Numbers are modelled as rationals (`ℚ`); division by zero, which produces
`NaN` in the source's floating-point arithmetic, is the total division of
`ℚ` (yielding `0`).  Every theorem whose conclusion depends on a division
carries hypotheses keeping the denominators nonzero, except where a
counterexample deliberately exhibits the degenerate case; there, both the
`NaN` of the source and the `0` of the model violate the claimed property.

Python exceptions are modelled with `Except String`, the error string naming
the Python exception class (`"KeyError"`, `"AttributeError"`, ...).
Python dictionaries are modelled as association lists in insertion order,
with update-in-place semantics (`dictSet`).
-/

namespace RmndLca

/-! ## Generic helpers: dictionaries, substring search, list min/max -/

/-- Lookup in a Python-style dictionary modelled as an association list. -/

def dictGet? {κ α : Type} [DecidableEq κ] (d : List (κ × α)) (k : κ) : Option α :=
  (d.find? (fun p => decide (p.1 = k))).map (fun p => p.2)

/-- `d[k] = v` on a Python dictionary: replaces the value in place if the key
exists, otherwise appends the new key at the end (insertion order). -/

def dictSet {κ α : Type} [DecidableEq κ] (d : List (κ × α)) (k : κ) (v : α) :
    List (κ × α) :=
  if (dictGet? d k).isSome then
    d.map (fun p => if p.1 = k then (k, v) else p)
  else d ++ [(k, v)]

/-- `d[k]`, raising `KeyError` when the key is absent. -/

def dictGetExc {κ α : Type} [DecidableEq κ] (d : List (κ × α)) (k : κ) :
    Except String α :=
  match dictGet? d k with
  | some v => Except.ok v
  | none => Except.error "KeyError"

/-- Python's `sub in s` substring test on the underlying character lists. -/

def strContainsSub (s sub : String) : Bool :=
  (List.range (s.data.length + 1)).any (fun i => sub.data.isPrefixOf (s.data.drop i))

/-- Minimum of a list of integers (`numpy` `.min()`); `0` on the empty list,
where the source would raise. -/

def listMin : List Int → Int
  | [] => 0
  | x :: xs => xs.foldl min x

/-- Maximum of a list of integers (`numpy` `.max()`); `0` on the empty list,
where the source would raise. -/

def listMax : List Int → Int
  | [] => 0
  | x :: xs => xs.foldl max x

/-! ## Linear interpolation along the year axis

`xarray`'s `.interp(year=y)` (linear method): take the greatest stored year
`y1 ≤ y` and the least stored year `y2 ≥ y` and interpolate linearly between
them; at a stored year the stored value is returned. -/

/-- Greatest stored year that is `≤ y`. -/

def bracketLow (years : List Int) (y : Int) : Option Int :=
  let c := years.filter (fun x => decide (x ≤ y))
  if c.isEmpty then none else some (listMax c)

/-- Least stored year that is `≥ y`. -/

def bracketHigh (years : List Int) (y : Int) : Option Int :=
  let c := years.filter (fun x => decide (y ≤ x))
  if c.isEmpty then none else some (listMin c)

/-- Linear interpolation of `f` over the knots `years` at point `y`
(the `.interp(year=y)` of `xarray`, restricted to integer query points as in
the source, where `self.year` is an `int`).  Outside the stored range the
source would produce `NaN`; the model returns `0` there (such queries are
excluded by the range check in `get_remind_electricity_markets`). -/

def interpAt (years : List Int) (f : Int → ℚ) (y : Int) : ℚ :=
  match bracketLow years y, bracketHigh years y with
  | some y1, some y2 =>
      if y1 = y2 then f y1
      else f y1 + (f y2 - f y1) * (((y : ℚ) - (y1 : ℚ)) / ((y2 : ℚ) - (y1 : ℚ)))
  | _, _ => 0

/-! ## Embedding of `data_collection.py` (`RemindDataCollection`)

The REMIND output array (`self.data`, built by `get_remind_data`) is a
3-axis array over (variable, region, year); the length-1 `value` axis of the
source is dropped.  File parsing is out of scope (spec §1): the store holds
the already-parsed label dictionary and the array as a total value function
over coordinates. -/

structure RemindDataStore where
  /-- `self.electricity_market_labels`: variable code ↦ technology label,
  in file order (`get_remind_electricity_market_labels`). -/
  electricity_market_labels : List (String × String)
  /-- `self.data.coords['year']`: the stored scenario years (csv columns). -/
  years : List Int
  /-- `self.data.loc[variable, region, year]`: the raw stored value. -/
  val : String → String → Int → ℚ

/-- `list_technologies` of `get_remind_electricity_markets` (lines 221-224):
the label-dictionary values, with labels containing `'Hydrogen'` removed when
`drop_hydrogen` is set. -/

def market_list_technologies (d : RemindDataStore) (drop_hydrogen : Bool) :
    List String :=
  if drop_hydrogen then
    (d.electricity_market_labels.map (fun p => p.2)).filter
      (fun l => !(strContainsSub l "Hydrogen"))
  else d.electricity_market_labels.map (fun p => p.2)

/-- Per-region sum of the raw values over the selected technologies at one
year: `self.data.loc[list_technologies,:,:].groupby('region').sum(axis=0)`
evaluated at (region, year). -/

def regionSum (d : RemindDataStore) (techs : List String) (r : String)
    (y : Int) : ℚ :=
  (techs.map (fun t => d.val t r y)).sum

/-- One entry of `self.data.loc[techs,:,:] / <groupby-region sum>`: the raw
value normalized by its region's total at the same year. -/

def normalizedVal (d : RemindDataStore) (techs : List String) (t r : String)
    (y : Int) : ℚ :=
  d.val t r y / regionSum d techs r y

/-- The exact-year branch of `get_remind_electricity_markets` (lines 231-234):
normalize that year's raw values per region. -/

def exactYearMix (d : RemindDataStore) (drop_hydrogen : Bool) (y : Int) :
    String → String → ℚ :=
  fun t r => normalizedVal d (market_list_technologies d drop_hydrogen) t r y

/-- The interpolation branch of `get_remind_electricity_markets`
(lines 237-241): normalize the raw values per region at every stored year
(`data_to_interp_from`), then linearly interpolate along the year axis. -/

def interpYearMix (d : RemindDataStore) (drop_hydrogen : Bool) (y : Int) :
    String → String → ℚ :=
  fun t r =>
    interpAt d.years
      (fun yy => normalizedVal d (market_list_technologies d drop_hydrogen) t r yy) y

/-- `RemindDataCollection.get_remind_electricity_markets` (lines 208-241).
The returned array is modelled as a function (technology label, region) ↦
share; the `KeyError` raised for an out-of-range year carries the source's
hard-coded message. -/

def get_remind_electricity_markets (d : RemindDataStore) (year : Int)
    (drop_hydrogen : Bool) : Except String (String → String → ℚ) :=
  if year < listMin d.years ∨ year > listMax d.years then
    Except.error "year not valid, must be between 2005 and 2150"
  else if year ∈ d.years then
    Except.ok (exactYearMix d drop_hydrogen year)
  else
    Except.ok (interpYearMix d drop_hydrogen year)

/-- The mix as claim C2 describes it (from the spec's words, for comparison
with the code's computation): linearly interpolate the *raw* values first,
and only then apply the per-region sum-to-one normalization to the
interpolated raw values. -/

def specMixInterpThenNormalize (d : RemindDataStore) (techs : List String)
    (t r : String) (y : Int) : ℚ :=
  interpAt d.years (fun yy => d.val t r yy) y /
    (techs.map (fun u => interpAt d.years (fun yy => d.val u r yy) y)).sum

/-! ### Concrete data stores for counterexamples and witnesses -/

/-- Two technologies `a`, `b` in one region `R`, stored years 2000 and 2010:
raw values `a ↦ 1, b ↦ 1` at 2000 and `a ↦ 3, b ↦ 1` at 2010. -/

def dcAB : RemindDataStore where
  electricity_market_labels := [("SE|Electricity|a", "a"), ("SE|Electricity|b", "b")]
  years := [2000, 2010]
  val := fun t _ y =>
    if t = "a" then (if y = 2000 then 1 else if y = 2010 then 3 else 0)
    else if t = "b" then (if y = 2000 then 1 else if y = 2010 then 1 else 0)
    else 0

/-- One technology `a` in one region `R`: raw value `0` at 2000 and `2`
at 2010 (zero region total at the lower bracketing year). -/

def dcZero : RemindDataStore where
  electricity_market_labels := [("SE|Electricity|a", "a")]
  years := [2000, 2010]
  val := fun t _ y =>
    if t = "a" then (if y = 2000 then 0 else if y = 2010 then 2 else 0)
    else 0

/-! ## Embedding of `electricity.py` (`Electricity`)

The `wurst` geomatcher keys are either plain location strings (for example
`'GLO'`) or `(topology, code)` tuples (for example `('REMIND', 'EUR')`);
`GeoLoc` models both.  Python attribute access is a dictionary lookup on the
object's attribute dictionary, raising `AttributeError` when absent. -/

inductive GeoLoc where
  | plain (code : String)
  | tup (topology : String) (code : String)
deriving DecidableEq

/-- Python `r[0]`: the topology of a tuple key; the first character of a
plain string key (so never equal to `"REMIND"`). -/

def geoLocFirst : GeoLoc → String
  | GeoLoc.plain s => s.take 1
  | GeoLoc.tup t _ => t

/-- Python `r[1]`: the code of a tuple key; the second character of a plain
string key (only reachable behind an `r[0] == 'REMIND'` filter). -/

def geoLocSecond : GeoLoc → String
  | GeoLoc.plain s => (s.drop 1).take 1
  | GeoLoc.tup _ c => c

/-- Python `t[1] if isinstance(t, tuple) else t` (line 132). -/

def geoLocFlat : GeoLoc → String
  | GeoLoc.plain s => s
  | GeoLoc.tup _ c => c

/-- The `wurst.geo.geomatcher` object (`self.geo` is the same object after
`add_definitions`): its `intersects` and `contained` query tables.  Absent
keys make the corresponding query raise `KeyError`. -/

structure Geo where
  intersectsMap : List (String × List GeoLoc)
  containedMap : List (GeoLoc × List GeoLoc)

/-- `geomatcher.intersects(location)`. -/

def geoIntersects (g : Geo) (location : String) : Except String (List GeoLoc) :=
  match dictGet? g.intersectsMap location with
  | some rs => Except.ok rs
  | none => Except.error "KeyError"

/-- `geomatcher.contained(region)`. -/

def geoContained (g : Geo) (region : GeoLoc) : Except String (List GeoLoc) :=
  match dictGet? g.containedMap region with
  | some rs => Except.ok rs
  | none => Except.error "KeyError"

/-- A Python attribute value, as far as the claims need it: a string-valued
dictionary, or an opaque object whose content is never inspected. -/

inductive PyVal where
  | strDict (d : List (String × String))
  | other
deriving DecidableEq

/-- Attribute access `obj.<name>` on an attribute dictionary. -/

def getattr? (attrs : List (String × PyVal)) (name : String) :
    Except String PyVal :=
  match dictGet? attrs name with
  | some v => Except.ok v
  | none => Except.error "AttributeError"

/-- Subscripting a value that must be a dictionary. -/

def asStrDict : PyVal → Except String (List (String × String))
  | PyVal.strDict d => Except.ok d
  | PyVal.other => Except.error "TypeError"

/-- `{v: k for k, v in d.items()}` (`get_rev_electricity_market_labels`,
data_collection.py lines 87-88); later duplicates overwrite earlier ones. -/

def revDict (d : List (String × String)) : List (String × String) :=
  d.foldl (fun acc kv => dictSet acc kv.2 kv.1) []

/-- The attribute dictionary produced by `RemindDataCollection.__init__`
(data_collection.py lines 28-40), in assignment order.  The array-valued
attributes are opaque here.  Note there is no attribute named
`rev_market_labels` and none named `markets`. -/

def remindDataCollectionAttrs (market_labels efficiency_labels
    emission_labels : List (String × String)) : List (String × PyVal) :=
  [("scenario", PyVal.other),
   ("year", PyVal.other),
   ("data", PyVal.other),
   ("gains_data", PyVal.other),
   ("electricity_market_labels", PyVal.strDict market_labels),
   ("electricity_efficiency_labels", PyVal.strDict efficiency_labels),
   ("electricity_emission_labels", PyVal.strDict emission_labels),
   ("rev_electricity_market_labels", PyVal.strDict (revDict market_labels)),
   ("rev_electricity_efficiency_labels", PyVal.strDict (revDict efficiency_labels)),
   ("electricity_markets", PyVal.other),
   ("electricity_efficiencies", PyVal.other),
   ("electricity_emissions", PyVal.other)]

/-- The attribute names of an `Electricity` instance: the four `__init__`
assignments plus the class's methods.  There is no attribute named
`ecoinvent_to_remind_locations` (the defined method is the singular
`ecoinvent_to_remind_location`). -/

def electricityClassAttrs : List String :=
  ["db", "rmd", "geo", "activities_map", "powerplant_map",
   "get_REMIND_geomatcher", "ecoinvent_to_remind_location",
   "empty_electricity_markets", "delete_electricity_inputs_from_market",
   "find_ecoinvent_electricity_datasets_in_same_ecoinvent_location",
   "find_other_ecoinvent_regions_in_remind_region",
   "find_ecoinvent_electricity_datasets_in_remind_location",
   "add_new_datasets_to_electricity_market", "update_electricity_markets"]

/-- An inventory record, restricted to the fields the electricity code
filters on. -/

structure Dataset where
  name : String
  location : String
  unit : String
deriving DecidableEq

/-- One exchange of a market dataset, restricted to the fields the claims
touch. -/

structure Exchange where
  name : String
  unit : String
  amount : ℚ
deriving DecidableEq

/-- One electricity market dataset (`ds`). -/

structure MarketDs where
  name : String
  location : String
  exchanges : List Exchange
deriving DecidableEq

/-- The state of an `Electricity` instance reached by the claims:
the inventory database, the data-collection object's attribute dictionary
(`self.rmd`), the powerplant name map (built by the out-of-scope
`InventorySet`), and the geomatcher.

`fix_names` is modelled from the spec: `clean_datasets.py`
(`dbclean('').get_fix_names_dict()`) is not among the sources; the spec says
only that "a small fixed dictionary of renamed codes is applied", so the
dictionary is a parameter of the model. -/

structure ElectricityModel where
  db : List Dataset
  rmdAttrs : List (String × PyVal)
  powerplant_map : List (String × List String)
  geo : Geo
  fix_names : List (String × String)

/-! ### `get_REMIND_geomatcher` (lines 41-69): claim C7 -/

/-- The fixed exclusion list (line 51). -/

def countries_not_found : List String := ["CC", "CX", "GG", "JE", "BL", "MA"]

/-- The two dictionaries built by the loop of `get_REMIND_geomatcher`
(lines 53-64) from the parsed `(ISO, region)` rows `l`:
`rmnd_to_iso` appends each ISO code to its region's list; the loop then
executes `iso_to_rmnd[region] = ISO` — keyed by the *region*, exactly as in
the source. -/

def get_REMIND_geomatcher_maps (l : List (String × String)) :
    List (String × List String) × List (String × String) :=
  l.foldl
    (fun maps p =>
      if p.1 ∈ countries_not_found then maps
      else
        ((match dictGet? maps.1 p.2 with
          | some isos => dictSet maps.1 p.2 (isos ++ [p.1])
          | none => maps.1 ++ [(p.2, [p.1])]),
         dictSet maps.2 p.2 p.1))
    ([], [])

/-! ### `ecoinvent_to_remind_location` (lines 71-90): claim C6 -/

/-- The alias normalization shared by `ecoinvent_to_remind_location`
(lines 80-83) and `find_other_ecoinvent_regions_in_remind_region`
(lines 126-129): `'RoW'` becomes `'GLO'`, then the rename dictionary is
applied. -/

def fixLocationAliases (fix_names : List (String × String))
    (location : String) : String :=
  let location := if location = "RoW" then "GLO" else location
  (dictGet? fix_names location).getD location

/-- `Electricity.ecoinvent_to_remind_location` (lines 71-90).  When
`self.geo.intersects` raises `KeyError`, the handler runs
`print("...".format(remind_location))` with `remind_location` still unbound,
so the handler itself raises `UnboundLocalError` (and the `return` after it
would too): the function raises for unknown codes instead of returning an
empty list. -/

def ecoinvent_to_remind_location (self : ElectricityModel)
    (location : String) : Except String (List String) :=
  let location := fixLocationAliases self.fix_names location
  match geoIntersects self.geo location with
  | Except.ok rs =>
      Except.ok ((rs.filter (fun r => geoLocFirst r == "REMIND")).map geoLocSecond)
  | Except.error _ => Except.error "UnboundLocalError"

/-! ### `delete_electricity_inputs_from_market` (lines 98-106): claim C9 -/

/-- The keep-filter of `delete_electricity_inputs_from_market`: an exchange
survives iff its unit does not contain `'kilowatt hour'`, or its name
contains one of the three self-consumption market patterns or the
voltage-transformation pattern (`ws.either` of the five conditions). -/

def keepExchange (exc : Exchange) : Bool :=
  !(strContainsSub exc.unit "kilowatt hour") ||
  strContainsSub exc.name "market for electricity, high voltage" ||
  strContainsSub exc.name "market for electricity, medium voltage" ||
  strContainsSub exc.name "market for electricity, low voltage" ||
  strContainsSub exc.name "electricity voltage transformation"

/-- `Electricity.delete_electricity_inputs_from_market` (lines 98-106):
`ds['exchanges']` is replaced by the kept exchanges, in order. -/

def delete_electricity_inputs_from_market (ds : MarketDs) : MarketDs :=
  { ds with exchanges := ds.exchanges.filter keepExchange }

/-- The claim's "self-consumption exchange": name containing one of the
"market for electricity, high/medium/low voltage" patterns. -/

def isSelfConsumptionExchange (exc : Exchange) : Prop :=
  strContainsSub exc.name "market for electricity, high voltage" = true ∨
  strContainsSub exc.name "market for electricity, medium voltage" = true ∨
  strContainsSub exc.name "market for electricity, low voltage" = true

/-- The claim's "voltage-transformation exchange". -/

def isVoltageTransformationExchange (exc : Exchange) : Prop :=
  strContainsSub exc.name "electricity voltage transformation" = true

/-- The claim's "kilowatt-hour exchange" (the code's `contains('unit',
'kilowatt hour')`). -/

def isKilowattHourExchange (exc : Exchange) : Prop :=
  strContainsSub exc.unit "kilowatt hour" = true

instance : DecidablePred isSelfConsumptionExchange := fun exc => by
  unfold isSelfConsumptionExchange
  exact inferInstance

instance : DecidablePred isVoltageTransformationExchange := fun exc => by
  unfold isVoltageTransformationExchange
  exact inferInstance

instance : DecidablePred isKilowattHourExchange := fun exc => by
  unfold isKilowattHourExchange
  exact inferInstance

/-! ### The per-technology supplier searches (lines 108-145): claims C8, C10 -/

/-- The body of the first `try` of
`find_ecoinvent_electricity_datasets_in_same_ecoinvent_location`
(lines 110-113).  Python evaluates the `ws.get_many` arguments first:
`self.powerplant_map[self.rmd.rev_market_labels[tech]]` — the attribute
access `self.rmd.rev_market_labels` comes first and raises `AttributeError`
on a real `RemindDataCollection` (whose attribute is named
`rev_electricity_market_labels`). -/

def sameLocTryBody1 (self : ElectricityModel) (tech location : String) :
    Except String (List Dataset) := do
  let revLabelsVal ← getattr? self.rmdAttrs "rev_market_labels"
  let revLabels ← asStrDict revLabelsVal
  let label ← dictGetExc revLabels tech
  let names ← dictGetExc self.powerplant_map label
  Except.ok (self.db.filter (fun x =>
    names.contains x.name && x.location == location && x.unit == "kilowatt hour"))

/-- The body of the inner `try` (lines 117-121).  After the same
`rev_market_labels` lookup, the code calls
`self.ecoinvent_to_remind_locations(location)`: the `Electricity` class has
no attribute of that name (only the singular
`ecoinvent_to_remind_location`), so the lookup raises `AttributeError`;
and even if it existed, `ws.equals('location', <list>)` compares each
record's string location against a list, which never matches (hence the
always-false conjunct). -/

def sameLocTryBody2 (self : ElectricityModel) (tech location : String) :
    Except String (List Dataset) := do
  let revLabelsVal ← getattr? self.rmdAttrs "rev_market_labels"
  let revLabels ← asStrDict revLabelsVal
  let label ← dictGetExc revLabels tech
  let names ← dictGetExc self.powerplant_map label
  if electricityClassAttrs.contains "ecoinvent_to_remind_locations" then
    Except.ok (self.db.filter (fun x =>
      names.contains x.name && false && x.unit == "kilowatt hour"))
  else Except.error "AttributeError"

/-- `Electricity.find_ecoinvent_electricity_datasets_in_same_ecoinvent_location`
(lines 108-123): first `try` body, on any exception the second, on any
exception the bare `except` returns `[]`. -/

def find_ecoinvent_electricity_datasets_in_same_ecoinvent_location
    (self : ElectricityModel) (tech location : String) : List Dataset :=
  match sameLocTryBody1 self tech location with
  | Except.ok r => r
  | Except.error _ =>
      match sameLocTryBody2 self tech location with
      | Except.ok r => r
      | Except.error _ => []

/-- `Electricity.find_other_ecoinvent_regions_in_remind_region`
(lines 125-134): alias normalization, the REMIND regions intersecting the
code, then every location contained in those regions.  `set(...)` only
deduplicates; membership is unchanged, so the model deduplicates with
`eraseDups`.  Exceptions (an unknown code) propagate to the caller. -/

def find_other_ecoinvent_regions_in_remind_region (self : ElectricityModel)
    (loc : String) : Except String (List String) := do
  let loc := fixLocationAliases self.fix_names loc
  let rs ← geoIntersects self.geo loc
  let remind_regions := rs.filter (fun r => geoLocFirst r == "REMIND")
  let temp ← remind_regions.mapM (fun region => geoContained self.geo region)
  Except.ok ((temp.flatten.map geoLocFlat).eraseDups)

/-- The body of the `try` of
`find_ecoinvent_electricity_datasets_in_remind_location` (lines 138-143);
again the `rev_market_labels` attribute access comes first. -/

def remindLocTryBody (self : ElectricityModel) (tech location : String) :
    Except String (List Dataset) := do
  let revLabelsVal ← getattr? self.rmdAttrs "rev_market_labels"
  let revLabels ← asStrDict revLabelsVal
  let label ← dictGetExc revLabels tech
  let names ← dictGetExc self.powerplant_map label
  let locs ← find_other_ecoinvent_regions_in_remind_region self location
  Except.ok (self.db.filter (fun x =>
    names.contains x.name && locs.contains x.location && x.unit == "kilowatt hour"))

/-- `Electricity.find_ecoinvent_electricity_datasets_in_remind_location`
(lines 136-145): the `try` body, with a bare `except` returning `[]`. -/

def find_ecoinvent_electricity_datasets_in_remind_location
    (self : ElectricityModel) (tech location : String) : List Dataset :=
  match remindLocTryBody self tech location with
  | Except.ok r => r
  | Except.error _ => []

/-! ### `add_new_datasets_to_electricity_market` (lines 147-211): claims C1, C8 -/

/-- The three fallback tiers of the supplier search
(`add_new_datasets_to_electricity_market`, lines 160-176). -/

inductive SupplierTier where
  | exactLoc
  | siblingRegion
  | globalLoc
deriving DecidableEq

/-- The search each tier runs (lines 164, 170, 175). -/

def supplier_search (self : ElectricityModel) (tech location : String) :
    SupplierTier → List Dataset
  | SupplierTier.exactLoc =>
      find_ecoinvent_electricity_datasets_in_same_ecoinvent_location self tech location
  | SupplierTier.siblingRegion =>
      find_ecoinvent_electricity_datasets_in_remind_location self tech location
  | SupplierTier.globalLoc =>
      find_ecoinvent_electricity_datasets_in_same_ecoinvent_location self tech "GLO"

/-- The control flow of lines 164-176: run the exact-location search; only
if it returned no records (`len(datasets[i]) == 0`) run the sibling-region
search; only if that also returned no records run the global search.  The
second component records which tiers' searches the control flow actually
executed, so that non-invocation of the later tiers is statable. -/

def select_suppliers (search : SupplierTier → List Dataset) :
    List Dataset × List SupplierTier :=
  let d1 := search SupplierTier.exactLoc
  if d1.length = 0 then
    let d2 := search SupplierTier.siblingRegion
    if d2.length = 0 then
      (search SupplierTier.globalLoc,
       [SupplierTier.exactLoc, SupplierTier.siblingRegion, SupplierTier.globalLoc])
    else (d2, [SupplierTier.exactLoc, SupplierTier.siblingRegion])
  else (d1, [SupplierTier.exactLoc])

/-- The per-market body of `add_new_datasets_to_electricity_market`
(lines 147-211) up to the candidate-supplier dictionary `datasets`:
resolve the REMIND regions of the market's location, then access
`self.rmd.markets` — an attribute a `RemindDataCollection` does not have
(its attribute is `electricity_markets`), so this raises `AttributeError`
on a real data-collection object.  Were the attribute present (an opaque
array here), the mix and the per-technology tier searches would follow;
the mix is abstracted as the technology list with nonzero mean share,
since only the searches matter to the claims.  Returns the `datasets`
dictionary. -/

def build_candidate_datasets (self : ElectricityModel) (ds : MarketDs)
    (nonzero_mix_techs : List String) :
    Except String (List (String × List Dataset)) := do
  let _remind_locations ← ecoinvent_to_remind_location self ds.location
  let _markets ← getattr? self.rmdAttrs "markets"
  Except.ok (nonzero_mix_techs.map (fun i =>
    (i, (select_suppliers (supplier_search self i ds.location)).1)))

/-- `Electricity.add_new_datasets_to_electricity_market` (lines 147-211).
The exchange-assembly block of the source (lines 191-211) is commented out:
the function builds the candidate-supplier dictionary, prints, and mutates
nothing — `ds['exchanges']` is returned exactly as it came in. -/

def add_new_datasets_to_electricity_market (self : ElectricityModel)
    (ds : MarketDs) (nonzero_mix_techs : List String) :
    Except String (MarketDs × List (String × List Dataset)) :=
  (build_candidate_datasets self ds nonzero_mix_techs).map
    (fun datasets => (ds, datasets))

/-! ### Concrete instances for witnesses and failing inputs -/

/-- A geomatcher knowing `DE` (inside REMIND region `EUR`) and `GLO`,
but not `XX`. -/

def geoDE : Geo where
  intersectsMap :=
    [("DE", [GeoLoc.tup "REMIND" "EUR", GeoLoc.plain "GLO"]),
     ("GLO", [GeoLoc.plain "GLO"])]
  containedMap :=
    [(GeoLoc.tup "REMIND" "EUR", [GeoLoc.plain "DE", GeoLoc.plain "FR"])]

/-- A hard-coal supplier record at `DE`. -/

def coalDs : Dataset where
  name := "electricity production, hard coal"
  location := "DE"
  unit := "kilowatt hour"

/-- The structural self-consumption exchange of a high-voltage market. -/

def excSelf : Exchange where
  name := "market for electricity, high voltage"
  unit := "kilowatt hour"
  amount := 1

/-- A composition exchange (to be cleared). -/

def excCoal : Exchange where
  name := "electricity production, hard coal"
  unit := "kilowatt hour"
  amount := 1

/-- A non-electricity exchange (transport service, unit not kilowatt hour). -/

def excTransport : Exchange where
  name := "market for transport, freight train"
  unit := "ton kilometer"
  amount := 2

/-- A high-voltage market dataset at `DE`. -/

def dsHVMarket : MarketDs where
  name := "market for electricity, high voltage"
  location := "DE"
  exchanges := [excSelf, excCoal, excTransport]

/-- An `Electricity` instance whose `rmd` carries exactly the attributes a
`RemindDataCollection.__init__` assigns. -/

def selfReal : ElectricityModel where
  db := [coalDs]
  rmdAttrs := remindDataCollectionAttrs
    [("SE|Electricity|Coal", "Coal")] [] []
  powerplant_map := [("Coal", ["electricity production, hard coal"])]
  geo := geoDE
  fix_names := []

/-- A hypothetical `Electricity` instance whose data-collection object
carries the attribute names the searches and the market loop actually ask
for (`rev_market_labels`, `markets`): the claims' intended happy path. -/

def selfOk : ElectricityModel where
  db := [coalDs]
  rmdAttrs :=
    [("rev_market_labels", PyVal.strDict [("Coal", "Coal")]),
     ("markets", PyVal.other)]
  powerplant_map := [("Coal", ["electricity production, hard coal"])]
  geo := geoDE
  fix_names := []

/-- Parsed region-mapping rows for claim C7: two fine codes in `EUR` and the
excluded code `CC`. -/

def regionRows7 : List (String × String) :=
  [("DE", "EUR"), ("FR", "EUR"), ("CC", "EUR")]

/-- A supplier search whose exact-location tier already returns a record. -/

def searchW : SupplierTier → List Dataset
  | SupplierTier.exactLoc => [coalDs]
  | SupplierTier.siblingRegion => []
  | SupplierTier.globalLoc => []

theorem foldl_min_le_init (l : List Int) : ∀ a : Int, l.foldl min a ≤ a := by
  induction l with
  | nil => intro a; exact le_refl a
  | cons x xs ih =>
    intro a
    exact le_trans (ih (min a x)) (min_le_left a x)

theorem foldl_min_le_mem (l : List Int) :
    ∀ a : Int, ∀ x ∈ l, l.foldl min a ≤ x := by
  induction l with
  | nil => intro a x hx; cases hx
  | cons y ys ih =>
    intro a x hx
    rcases List.mem_cons.mp hx with h | h
    · subst h
      exact le_trans (foldl_min_le_init ys (min a x)) (min_le_right a x)
    · exact ih (min a y) x h

theorem foldl_min_mem_or (l : List Int) :
    ∀ a : Int, l.foldl min a = a ∨ l.foldl min a ∈ l := by
  induction l with
  | nil => intro a; exact Or.inl rfl
  | cons y ys ih =>
    intro a
    rcases ih (min a y) with h | h
    · rcases min_choice a y with hm | hm
      · exact Or.inl (by rw [List.foldl_cons, h, hm])
      · exact Or.inr (by rw [List.foldl_cons, h, hm]; exact List.mem_cons_self y ys)
    · exact Or.inr (List.mem_cons_of_mem y h)

theorem listMin_le_mem (l : List Int) (x : Int) (hx : x ∈ l) : listMin l ≤ x := by
  cases l with
  | nil => cases hx
  | cons y ys =>
    rcases List.mem_cons.mp hx with h | h
    · subst h; exact foldl_min_le_init ys x
    · exact foldl_min_le_mem ys y x h

theorem listMin_mem (l : List Int) (h : l ≠ []) : listMin l ∈ l := by
  cases l with
  | nil => exact absurd rfl h
  | cons y ys =>
    rcases foldl_min_mem_or ys y with h1 | h1
    · rw [listMin, h1]; exact List.mem_cons_self y ys
    · exact List.mem_cons_of_mem y h1

theorem foldl_max_init_le (l : List Int) : ∀ a : Int, a ≤ l.foldl max a := by
  induction l with
  | nil => intro a; exact le_refl a
  | cons x xs ih =>
    intro a
    exact le_trans (le_max_left a x) (ih (max a x))

theorem foldl_max_mem_le (l : List Int) :
    ∀ a : Int, ∀ x ∈ l, x ≤ l.foldl max a := by
  induction l with
  | nil => intro a x hx; cases hx
  | cons y ys ih =>
    intro a x hx
    rcases List.mem_cons.mp hx with h | h
    · subst h
      exact le_trans (le_max_right a x) (foldl_max_init_le ys (max a x))
    · exact ih (max a y) x h

theorem foldl_max_mem_or (l : List Int) :
    ∀ a : Int, l.foldl max a = a ∨ l.foldl max a ∈ l := by
  induction l with
  | nil => intro a; exact Or.inl rfl
  | cons y ys ih =>
    intro a
    rcases ih (max a y) with h | h
    · rcases max_choice a y with hm | hm
      · exact Or.inl (by rw [List.foldl_cons, h, hm])
      · exact Or.inr (by rw [List.foldl_cons, h, hm]; exact List.mem_cons_self y ys)
    · exact Or.inr (List.mem_cons_of_mem y h)

theorem mem_le_listMax (l : List Int) (x : Int) (hx : x ∈ l) : x ≤ listMax l := by
  cases l with
  | nil => cases hx
  | cons y ys =>
    rcases List.mem_cons.mp hx with h | h
    · subst h; exact foldl_max_init_le ys x
    · exact foldl_max_mem_le ys y x h

theorem listMax_mem (l : List Int) (h : l ≠ []) : listMax l ∈ l := by
  cases l with
  | nil => exact absurd rfl h
  | cons y ys =>
    rcases foldl_max_mem_or ys y with h1 | h1
    · rw [listMax, h1]; exact List.mem_cons_self y ys
    · exact List.mem_cons_of_mem y h1

theorem bracketLow_of_mem (years : List Int) (y : Int) (hy : y ∈ years) :
    bracketLow years y = some y := by
  have hyc : y ∈ years.filter (fun x => decide (x ≤ y)) :=
    List.mem_filter.mpr ⟨hy, by simp⟩
  have hne : years.filter (fun x => decide (x ≤ y)) ≠ [] := by
    intro h
    rw [h] at hyc
    cases hyc
  have hmax := listMax_mem _ hne
  have hle : listMax (years.filter (fun x => decide (x ≤ y))) ≤ y := by
    have := (List.mem_filter.mp hmax).2
    simpa using this
  have hge : y ≤ listMax (years.filter (fun x => decide (x ≤ y))) :=
    mem_le_listMax _ y hyc
  have : listMax (years.filter (fun x => decide (x ≤ y))) = y := le_antisymm hle hge
  rw [bracketLow]
  simp only [List.isEmpty_iff]
  rw [if_neg hne, this]

theorem bracketHigh_of_mem (years : List Int) (y : Int) (hy : y ∈ years) :
    bracketHigh years y = some y := by
  have hyc : y ∈ years.filter (fun x => decide (y ≤ x)) :=
    List.mem_filter.mpr ⟨hy, by simp⟩
  have hne : years.filter (fun x => decide (y ≤ x)) ≠ [] := by
    intro h
    rw [h] at hyc
    cases hyc
  have hmin := listMin_mem _ hne
  have hge : y ≤ listMin (years.filter (fun x => decide (y ≤ x))) := by
    have := (List.mem_filter.mp hmin).2
    simpa using this
  have hle : listMin (years.filter (fun x => decide (y ≤ x))) ≤ y :=
    listMin_le_mem _ y hyc
  have : listMin (years.filter (fun x => decide (y ≤ x))) = y := le_antisymm hle hge
  rw [bracketHigh]
  simp only [List.isEmpty_iff]
  rw [if_neg hne, this]

theorem interpAt_knot (years : List Int) (f : Int → ℚ) (y : Int) (hy : y ∈ years) :
    interpAt years f y = f y := by
  rw [interpAt, bracketLow_of_mem years y hy, bracketHigh_of_mem years y hy]
  simp

theorem bracketLow_mem_le (years : List Int) (y y1 : Int)
    (h : bracketLow years y = some y1) : y1 ∈ years ∧ y1 ≤ y := by
  rw [bracketLow] at h
  simp only [List.isEmpty_iff] at h
  by_cases hne : years.filter (fun x => decide (x ≤ y)) = []
  · rw [if_pos hne] at h; cases h
  · rw [if_neg hne] at h
    have h1 : listMax (years.filter (fun x => decide (x ≤ y))) = y1 :=
      Option.some.inj h
    have hmem := listMax_mem _ hne
    rw [h1] at hmem
    have := List.mem_filter.mp hmem
    exact ⟨this.1, by simpa using this.2⟩

theorem bracketHigh_mem_le (years : List Int) (y y2 : Int)
    (h : bracketHigh years y = some y2) : y2 ∈ years ∧ y ≤ y2 := by
  rw [bracketHigh] at h
  simp only [List.isEmpty_iff] at h
  by_cases hne : years.filter (fun x => decide (y ≤ x)) = []
  · rw [if_pos hne] at h; cases h
  · rw [if_neg hne] at h
    have h1 : listMin (years.filter (fun x => decide (y ≤ x))) = y2 :=
      Option.some.inj h
    have hmem := listMin_mem _ hne
    rw [h1] at hmem
    have := List.mem_filter.mp hmem
    exact ⟨this.1, by simpa using this.2⟩

/-- A strictly lower bracket witnesses that the query year is not stored. -/

theorem not_mem_of_bracketLow_lt (years : List Int) (y y1 : Int)
    (h : bracketLow years y = some y1) (hlt : y1 < y) : y ∉ years := by
  intro hy
  rw [bracketLow_of_mem years y hy] at h
  have e : y = y1 := Option.some.inj h
  rw [← e] at hlt
  exact lt_irrefl y hlt

/-! ### List-sum helper lemmas -/

theorem listSum_map_add {α : Type} (l : List α) (f g : α → ℚ) :
    (l.map (fun t => f t + g t)).sum = (l.map f).sum + (l.map g).sum := by
  induction l with
  | nil => simp
  | cons x xs ih => simp [ih]; ring

theorem listSum_map_sub {α : Type} (l : List α) (f g : α → ℚ) :
    (l.map (fun t => f t - g t)).sum = (l.map f).sum - (l.map g).sum := by
  induction l with
  | nil => simp
  | cons x xs ih => simp [ih]; ring

theorem listSum_map_mul_right {α : Type} (l : List α) (f : α → ℚ) (c : ℚ) :
    (l.map (fun t => f t * c)).sum = (l.map f).sum * c := by
  induction l with
  | nil => simp
  | cons x xs ih => simp [ih]; ring

theorem listSum_map_div {α : Type} (l : List α) (f : α → ℚ) (c : ℚ) :
    (l.map (fun t => f t / c)).sum = (l.map f).sum / c := by
  induction l with
  | nil => simp
  | cons x xs ih => simp [ih]; ring

/-- Per-region, per-year normalized values sum to `1` over the technologies
whenever that region-year total is nonzero. -/

theorem normalizedVal_sum_eq_one (d : RemindDataStore) (techs : List String)
    (r : String) (y : Int) (h : regionSum d techs r y ≠ 0) :
    (techs.map (fun t => normalizedVal d techs t r y)).sum = 1 := by
  unfold normalizedVal
  rw [listSum_map_div]
  exact div_self h

/-- Unfolding of the interpolation at a point strictly between two knots. -/

theorem interpAt_eq_formula (years : List Int) (f : Int → ℚ) (y y1 y2 : Int)
    (h1 : bracketLow years y = some y1) (h2 : bracketHigh years y = some y2)
    (hne : y1 ≠ y2) :
    interpAt years f y =
      f y1 + (f y2 - f y1) * (((y : ℚ) - (y1 : ℚ)) / ((y2 : ℚ) - (y1 : ℚ))) := by
  rw [interpAt, h1, h2]
  dsimp only
  rw [if_neg hne]

/-- When the query year has a strictly lower bracket and an upper bracket
among the stored years, `get_remind_electricity_markets` takes its
interpolation branch. -/

theorem get_markets_interp_branch (d : RemindDataStore) (y : Int) (dh : Bool)
    (y1 y2 : Int) (hlo : bracketLow d.years y = some y1)
    (hhi : bracketHigh d.years y = some y2) (h1 : y1 < y) :
    get_remind_electricity_markets d y dh = Except.ok (interpYearMix d dh y) := by
  have hy1 := bracketLow_mem_le d.years y y1 hlo
  have hy2 := bracketHigh_mem_le d.years y y2 hhi
  have hnr : ¬ (y < listMin d.years ∨ y > listMax d.years) := by
    push_neg
    exact ⟨le_trans (listMin_le_mem d.years y1 hy1.1) hy1.2,
      le_trans hy2.2 (mem_le_listMax d.years y2 hy2.1)⟩
  have hnm : y ∉ d.years := not_mem_of_bracketLow_lt d.years y y1 hlo h1
  rw [get_remind_electricity_markets, if_neg hnr, if_neg hnm]

theorem listSum_interp_combo {α : Type} (l : List α) (f g : α → ℚ) (q : ℚ) :
    (l.map (fun t => f t + (g t - f t) * q)).sum =
      (l.map f).sum + ((l.map g).sum - (l.map f).sum) * q := by
  induction l with
  | nil => simp
  | cons x xs ih => simp [ih]; ring

/-- Claim C2 (amended): for a year strictly between two bracketing stored
years, the technology-mix query first applies the per-region sum-to-one
normalization to the raw values at each stored year, and then linearly
interpolates the normalized values, yielding
`n1 + (n2 - n1) * (Y - Y1) / (Y2 - Y1)` where `ni` is the normalized value
`vi / (region sum at Yi)` — normalization happens before interpolation, not
after it as the claim states. -/

theorem C2_normalize_then_interpolate (d : RemindDataStore) (y y1 y2 : Int)
    (t r : String) (m : String → String → ℚ)
    (hm : get_remind_electricity_markets d y true = Except.ok m)
    (hlo : bracketLow d.years y = some y1) (hhi : bracketHigh d.years y = some y2)
    (h1 : y1 < y) (h2 : y < y2) :
    m t r =
      normalizedVal d (market_list_technologies d true) t r y1 +
        (normalizedVal d (market_list_technologies d true) t r y2 -
          normalizedVal d (market_list_technologies d true) t r y1) *
          (((y : ℚ) - (y1 : ℚ)) / ((y2 : ℚ) - (y1 : ℚ))) := by
  rw [get_markets_interp_branch d y true y1 y2 hlo hhi h1] at hm
  have hmm : m = interpYearMix d true y := (Except.ok.inj hm).symm
  subst hmm
  show interpAt d.years
      (fun yy => normalizedVal d (market_list_technologies d true) t r yy) y = _
  exact interpAt_eq_formula d.years _ y y1 y2 hlo hhi (by omega)

/-- Witness for `C2_normalize_then_interpolate` at the concrete store `dcAB`,
year 2005 between the stored years 2000 and 2010. -/

theorem C2_witness :
    interpYearMix dcAB true 2005 "a" "R" =
      normalizedVal dcAB (market_list_technologies dcAB true) "a" "R" 2000 +
        (normalizedVal dcAB (market_list_technologies dcAB true) "a" "R" 2010 -
          normalizedVal dcAB (market_list_technologies dcAB true) "a" "R" 2000) *
          ((((2005 : Int) : ℚ) - ((2000 : Int) : ℚ)) /
            (((2010 : Int) : ℚ) - ((2000 : Int) : ℚ))) :=
  C2_normalize_then_interpolate dcAB 2005 2000 2010 "a" "R"
    (interpYearMix dcAB true 2005) rfl (by decide) (by decide) (by decide) (by decide)

/-- Claim C2 as stated is false on the code: at the store `dcAB`
(raw values `a ↦ 1, b ↦ 1` at 2000 and `a ↦ 3, b ↦ 1` at 2010) and year 2005,
the query returns `5/8` for technology `a` (normalize first, then
interpolate: `(1/2 + 3/4) / 2`), whereas interpolating the raw values first
and then normalizing, as the claim describes, yields `2/3`
(`interp raw a = 2`, `interp raw b = 1`). -/

theorem C2_counterexample :
    get_remind_electricity_markets dcAB 2005 true =
      Except.ok (interpYearMix dcAB true 2005) ∧
    interpYearMix dcAB true 2005 "a" "R" = (5 : ℚ)/8 ∧
    specMixInterpThenNormalize dcAB (market_list_technologies dcAB true)
      "a" "R" 2005 = (2 : ℚ)/3 ∧
    ((5 : ℚ)/8) ≠ (2 : ℚ)/3 := by
  have ht : market_list_technologies dcAB true = ["a", "b"] := by decide
  refine ⟨rfl, ?_, ?_, by norm_num⟩
  · rw [interpYearMix,
      interpAt_eq_formula dcAB.years _ 2005 2000 2010 (by decide) (by decide) (by decide),
      ht]
    simp [normalizedVal, regionSum, dcAB]
    norm_num
  · rw [specMixInterpThenNormalize, ht]
    rw [interpAt_eq_formula dcAB.years _ 2005 2000 2010 (by decide) (by decide) (by decide)]
    simp only [List.map_cons, List.map_nil,
      interpAt_eq_formula dcAB.years _ 2005 2000 2010 (by decide) (by decide) (by decide)]
    simp [dcAB]
    norm_num

/-- Claim C3 (amended): the per-region shares sum to exactly 1 over the
non-hydrogen technologies for every region whose non-hydrogen raw-value
total is nonzero at the stored years the query draws on — the bracketing
stored years `y1 ≤ y ≤ y2` (which coincide with the queried year when it is
stored).  When a bracketing year has a zero region total, the normalization
divides by zero and the property fails (`NaN` in the source's numerics). -/

theorem C3_shares_sum_to_one (d : RemindDataStore) (y y1 y2 : Int) (r : String)
    (m : String → String → ℚ)
    (hm : get_remind_electricity_markets d y true = Except.ok m)
    (hlo : bracketLow d.years y = some y1) (hhi : bracketHigh d.years y = some y2)
    (h1 : regionSum d (market_list_technologies d true) r y1 ≠ 0)
    (h2 : regionSum d (market_list_technologies d true) r y2 ≠ 0) :
    ((market_list_technologies d true).map (fun t => m t r)).sum = 1 := by
  have hy1 := bracketLow_mem_le d.years y y1 hlo
  have hy2 := bracketHigh_mem_le d.years y y2 hhi
  have hnr : ¬ (y < listMin d.years ∨ y > listMax d.years) := by
    push_neg
    exact ⟨le_trans (listMin_le_mem d.years y1 hy1.1) hy1.2,
      le_trans hy2.2 (mem_le_listMax d.years y2 hy2.1)⟩
  by_cases hmem : y ∈ d.years
  · rw [get_remind_electricity_markets, if_neg hnr, if_pos hmem] at hm
    have hmm : m = exactYearMix d true y := (Except.ok.inj hm).symm
    subst hmm
    have e1 : y = y1 := by
      have hb := bracketLow_of_mem d.years y hmem
      rw [hb] at hlo
      exact Option.some.inj hlo
    exact normalizedVal_sum_eq_one d (market_list_technologies d true) r y
      (by rw [e1]; exact h1)
  · rw [get_remind_electricity_markets, if_neg hnr, if_neg hmem] at hm
    have hmm : m = interpYearMix d true y := (Except.ok.inj hm).symm
    subst hmm
    have hne : y1 ≠ y2 := by
      intro e
      apply hmem
      have hyy : y = y1 := le_antisymm (by rw [e]; exact hy2.2) hy1.2
      rw [hyy]
      exact hy1.1
    have hform : ∀ t, interpYearMix d true y t r =
        normalizedVal d (market_list_technologies d true) t r y1 +
          (normalizedVal d (market_list_technologies d true) t r y2 -
            normalizedVal d (market_list_technologies d true) t r y1) *
            (((y : ℚ) - (y1 : ℚ)) / ((y2 : ℚ) - (y1 : ℚ))) := fun t =>
      interpAt_eq_formula d.years _ y y1 y2 hlo hhi hne
    simp only [hform]
    have hcombo := listSum_interp_combo (market_list_technologies d true)
      (fun t => normalizedVal d (market_list_technologies d true) t r y1)
      (fun t => normalizedVal d (market_list_technologies d true) t r y2)
      (((y : ℚ) - (y1 : ℚ)) / ((y2 : ℚ) - (y1 : ℚ)))
    simp only [] at hcombo
    rw [hcombo,
      normalizedVal_sum_eq_one d (market_list_technologies d true) r y1 h1,
      normalizedVal_sum_eq_one d (market_list_technologies d true) r y2 h2]
    ring

/-- Witness for `C3_shares_sum_to_one` at the concrete store `dcAB`,
year 2005: the shares `5/8` and `3/8` sum to 1. -/

theorem C3_witness :
    ((market_list_technologies dcAB true).map
      (fun t => interpYearMix dcAB true 2005 t "R")).sum = 1 :=
  C3_shares_sum_to_one dcAB 2005 2000 2010 "R" (interpYearMix dcAB true 2005)
    rfl (by decide) (by decide)
    (by
      have ht : market_list_technologies dcAB true = ["a", "b"] := by decide
      rw [ht]
      simp [regionSum, dcAB])
    (by
      have ht : market_list_technologies dcAB true = ["a", "b"] := by decide
      rw [ht]
      simp [regionSum, dcAB]
      norm_num)

/-- Claim C3 as stated is false on the code: at the store `dcZero`
(one non-hydrogen technology `a`, raw value 0 at 2000 and 2 at 2010) and
year 2005, technology `a` has nonzero interpolated generation (`1`) in
region `R`, yet the returned shares sum to `1/2`, not 1 within `1e-9`
(in the source's floating point the 2000 normalization is `0/0 = NaN` and
the sum is `NaN`; in the rational model the division by zero is 0 — the
tolerance property fails either way). -/

theorem C3_counterexample :
    get_remind_electricity_markets dcZero 2005 true =
      Except.ok (interpYearMix dcZero true 2005) ∧
    market_list_technologies dcZero true = ["a"] ∧
    interpAt dcZero.years (fun yy => dcZero.val "a" "R" yy) 2005 = 1 ∧
    ((market_list_technologies dcZero true).map
      (fun t => interpYearMix dcZero true 2005 t "R")).sum = (1 : ℚ)/2 ∧
    ¬ (|(1 : ℚ)/2 - 1| ≤ 1/1000000000) := by
  have ht : market_list_technologies dcZero true = ["a"] := by decide
  have habs : |(1 : ℚ)/2 - 1| = 1/2 := by
    rw [show ((1 : ℚ)/2 - 1) = -(1/2) by norm_num, abs_neg,
      abs_of_nonneg (by norm_num : (0 : ℚ) ≤ 1/2)]
  refine ⟨rfl, ht, ?_, ?_, by rw [habs]; norm_num⟩
  · rw [interpAt_eq_formula dcZero.years _ 2005 2000 2010 (by decide) (by decide) (by decide)]
    simp [dcZero]
    norm_num
  · rw [ht]
    simp only [List.map_cons, List.map_nil, List.sum_cons, List.sum_nil]
    rw [interpYearMix,
      interpAt_eq_formula dcZero.years _ 2005 2000 2010 (by decide) (by decide) (by decide),
      ht]
    simp [normalizedVal, regionSum, dcZero]
    norm_num

/-- Claim C4 (confirmed): at a year that is exactly one of the stored
scenario years, the interpolation-branch computation (normalize every stored
year per region, then interpolate) coincides with the exact-year branch
(normalize that year's raw values per region): interpolation degenerates to
the exact lookup at knot points. -/

theorem C4_interp_degenerates_at_knots (d : RemindDataStore) (dh : Bool)
    (y : Int) (hy : y ∈ d.years) (t r : String) :
    interpYearMix d dh y t r = exactYearMix d dh y t r :=
  interpAt_knot d.years _ y hy

/-- Witness for `C4_interp_degenerates_at_knots` at the stored year 2010 of
the concrete store `dcAB`. -/

theorem C4_witness :
    interpYearMix dcAB true 2010 "a" "R" = exactYearMix dcAB true 2010 "a" "R" :=
  C4_interp_degenerates_at_knots dcAB true 2010 (by decide) "a" "R"

/-- Claim C5 (amended): a query year strictly below the minimum or strictly
above the maximum stored year raises a `KeyError` — but its message is the
hard-coded string `"year not valid, must be between 2005 and 2150"`,
independent of the actual stored bounds, not a message computed from the
minimum and maximum available years; any year inside the stored range does
not raise. -/

theorem C5_out_of_range_error (d : RemindDataStore) (dh : Bool) (year : Int)
    (hne : d.years ≠ []) :
    (year < listMin d.years ∨ year > listMax d.years →
      get_remind_electricity_markets d year dh =
        Except.error "year not valid, must be between 2005 and 2150") ∧
    (listMin d.years ≤ year → year ≤ listMax d.years →
      ∃ m, get_remind_electricity_markets d year dh = Except.ok m) := by
  constructor
  · intro h
    rw [get_remind_electricity_markets, if_pos h]
  · intro hl hh
    have hno : ¬ (year < listMin d.years ∨ year > listMax d.years) := by
      push_neg
      exact ⟨hl, hh⟩
    by_cases hmem : year ∈ d.years
    · exact ⟨_, by rw [get_remind_electricity_markets, if_neg hno, if_pos hmem]⟩
    · exact ⟨_, by rw [get_remind_electricity_markets, if_neg hno, if_neg hmem]⟩

/-- Witness for `C5_out_of_range_error`: the year 1999 is below the minimum
stored year 2000 of `dcAB` and the query fails with the hard-coded message. -/

theorem C5_witness :
    get_remind_electricity_markets dcAB 1999 true =
      Except.error "year not valid, must be between 2005 and 2150" :=
  (C5_out_of_range_error dcAB true 1999 (by decide)).1 (by decide)

/-- Claim C5 as stated is false on the code: for the store `dcAB` with
stored years 2000..2010, the out-of-range error message is the hard-coded
`"year not valid, must be between 2005 and 2150"`, not
`"year must be between 2000 and 2010"` built from the actual minimum and
maximum available years. -/

theorem C5_counterexample :
    get_remind_electricity_markets dcAB 1999 true =
      Except.error "year not valid, must be between 2005 and 2150" ∧
    "year not valid, must be between 2005 and 2150" ≠
      "year must be between " ++ toString (listMin dcAB.years) ++ " and " ++
        toString (listMax dcAB.years) :=
  ⟨rfl, by decide⟩

/-! ### Claim theorems for `electricity.py` -/

/-- Claim C6: after alias normalization the containing-region lookup returns
the REMIND regions intersecting the code — but for a code unknown to the
geomatcher (`intersects` raises `KeyError`) the function does *not* return
an empty list: the `except KeyError` handler formats the still-unbound
variable `remind_location` and raises `UnboundLocalError`, so the lookup
raises for unknown codes (code bug: the handler exists precisely to swallow
the error, and the spec says the function never raises). -/

theorem C6_containing_region_lookup (self : ElectricityModel) (loc : String) :
    (∀ rs, geoIntersects self.geo (fixLocationAliases self.fix_names loc) =
        Except.ok rs →
      ecoinvent_to_remind_location self loc =
        Except.ok ((rs.filter (fun r => geoLocFirst r == "REMIND")).map geoLocSecond)) ∧
    (geoIntersects self.geo (fixLocationAliases self.fix_names loc) =
        Except.error "KeyError" →
      ecoinvent_to_remind_location self loc = Except.error "UnboundLocalError") := by
  constructor
  · intro rs h
    rw [ecoinvent_to_remind_location, h]
  · intro h
    rw [ecoinvent_to_remind_location, h]

/-- Witness for `C6_containing_region_lookup`, doubling as the failing-input
evaluation: the known code `DE` resolves to `["EUR"]`, while the unknown
code `XX` makes the function raise `UnboundLocalError` instead of returning
`[]`. -/

theorem C6_witness :
    ecoinvent_to_remind_location selfReal "DE" = Except.ok ["EUR"] ∧
    ecoinvent_to_remind_location selfReal "XX" =
      Except.error "UnboundLocalError" :=
  ⟨((C6_containing_region_lookup selfReal "DE").1
      [GeoLoc.tup "REMIND" "EUR", GeoLoc.plain "GLO"] rfl).trans rfl,
   (C6_containing_region_lookup selfReal "XX").2 rfl⟩

/-- Claim C7 is violated by the code: the loop of `get_REMIND_geomatcher`
executes `iso_to_rmnd[region] = ISO`, keying the "reverse" dictionary by
the macro-region and storing the last ISO code seen, instead of mapping
each fine code to its macro-region as the claim (and the code's own comment
"a reverse dictionary that maps ISO country codes to region names") states.
On the rows `[(DE, EUR), (FR, EUR), (CC, EUR)]` the reverse map comes out
as `{EUR: FR}`; looking up the fine code `DE` finds nothing.  The excluded
code `CC` is absent from both maps, as claimed. -/

theorem C7_reverse_map_keyed_by_region :
    get_REMIND_geomatcher_maps regionRows7 =
      ([("EUR", ["DE", "FR"])], [("EUR", "FR")]) ∧
    dictGet? (get_REMIND_geomatcher_maps regionRows7).2 "DE" = none ∧
    dictGet? (get_REMIND_geomatcher_maps regionRows7).2 "FR" = none ∧
    dictGet? (get_REMIND_geomatcher_maps regionRows7).1 "CC" = none ∧
    dictGet? (get_REMIND_geomatcher_maps regionRows7).2 "CC" = none := by
  decide

/-- Claim C8 (confirmed): the supplier set used is the result of the first
tier whose search returns a non-empty list, in the order exact-location,
sibling-region, global; when the exact-location search returns records,
neither the sibling-region search nor the global search is executed (they
do not appear in the invocation trace). -/

theorem C8_first_nonempty_tier_wins (search : SupplierTier → List Dataset) :
    (search SupplierTier.exactLoc ≠ [] →
      select_suppliers search =
        (search SupplierTier.exactLoc, [SupplierTier.exactLoc]) ∧
      SupplierTier.siblingRegion ∉ (select_suppliers search).2 ∧
      SupplierTier.globalLoc ∉ (select_suppliers search).2) ∧
    (search SupplierTier.exactLoc = [] → search SupplierTier.siblingRegion ≠ [] →
      select_suppliers search = (search SupplierTier.siblingRegion,
        [SupplierTier.exactLoc, SupplierTier.siblingRegion])) ∧
    (search SupplierTier.exactLoc = [] → search SupplierTier.siblingRegion = [] →
      select_suppliers search = (search SupplierTier.globalLoc,
        [SupplierTier.exactLoc, SupplierTier.siblingRegion, SupplierTier.globalLoc])) := by
  refine ⟨?_, ?_, ?_⟩
  · intro h
    have hc : ¬ (search SupplierTier.exactLoc).length = 0 := by
      simpa [List.length_eq_zero] using h
    have hsel : select_suppliers search =
        (search SupplierTier.exactLoc, [SupplierTier.exactLoc]) := by
      simp only [select_suppliers]
      rw [if_neg hc]
    exact ⟨hsel, by rw [hsel]; intro hc; simp at hc, by rw [hsel]; intro hc; simp at hc⟩
  · intro h1 h2
    have hc1 : (search SupplierTier.exactLoc).length = 0 := by simp [h1]
    have hc2 : ¬ (search SupplierTier.siblingRegion).length = 0 := by
      simpa [List.length_eq_zero] using h2
    simp only [select_suppliers]
    rw [if_pos hc1, if_neg hc2]
  · intro h1 h2
    have hc1 : (search SupplierTier.exactLoc).length = 0 := by simp [h1]
    have hc2 : (search SupplierTier.siblingRegion).length = 0 := by simp [h2]
    simp only [select_suppliers]
    rw [if_pos hc1, if_pos hc2]

/-- Witness for `C8_first_nonempty_tier_wins`: a search whose exact-location
tier returns a record; the trace contains only that tier. -/

theorem C8_witness :
    select_suppliers searchW = (searchW SupplierTier.exactLoc, [SupplierTier.exactLoc]) ∧
    SupplierTier.siblingRegion ∉ (select_suppliers searchW).2 ∧
    SupplierTier.globalLoc ∉ (select_suppliers searchW).2 :=
  (C8_first_nonempty_tier_wins searchW).1 (by decide)

/-- The keep-filter of the clear step, characterized by the claim's three
categories. -/

theorem keepExchange_iff (exc : Exchange) :
    keepExchange exc = true ↔
      (isSelfConsumptionExchange exc ∨ isVoltageTransformationExchange exc ∨
        ¬ isKilowattHourExchange exc) := by
  simp only [keepExchange, isSelfConsumptionExchange,
    isVoltageTransformationExchange, isKilowattHourExchange,
    Bool.or_eq_true, Bool.not_eq_true']
  constructor
  · intro h
    rcases h with ((((h | h) | h) | h) | h)
    · exact Or.inr (Or.inr (by simp [h]))
    · exact Or.inl (Or.inl h)
    · exact Or.inl (Or.inr (Or.inl h))
    · exact Or.inl (Or.inr (Or.inr h))
    · exact Or.inr (Or.inl h)
  · intro h
    rcases h with ((h | h | h) | h | h)
    · exact Or.inl (Or.inl (Or.inl (Or.inr h)))
    · exact Or.inl (Or.inl (Or.inr h))
    · exact Or.inl (Or.inr h)
    · exact Or.inr h
    · exact Or.inl (Or.inl (Or.inl (Or.inl (by simp [h]))))

/-- Claim C9 (confirmed): the clear step removes exactly the
electricity-supply exchanges — the result is a sublist of the original
exchange list (surviving exchanges are unchanged, in order); every
self-consumption, voltage-transformation or non-kilowatt-hour exchange
survives; and everything in the result is of one of those three kinds, so
every other kilowatt-hour exchange is removed. -/

theorem C9_clear_keeps_structural_only (ds : MarketDs) :
    (delete_electricity_inputs_from_market ds).location = ds.location ∧
    (delete_electricity_inputs_from_market ds).exchanges.Sublist ds.exchanges ∧
    (∀ exc ∈ ds.exchanges,
      (isSelfConsumptionExchange exc ∨ isVoltageTransformationExchange exc ∨
        ¬ isKilowattHourExchange exc) →
      exc ∈ (delete_electricity_inputs_from_market ds).exchanges) ∧
    (∀ exc ∈ (delete_electricity_inputs_from_market ds).exchanges,
      isSelfConsumptionExchange exc ∨ isVoltageTransformationExchange exc ∨
        ¬ isKilowattHourExchange exc) := by
  refine ⟨rfl, List.filter_sublist _, ?_, ?_⟩
  · intro exc hmem hkeep
    exact List.mem_filter.mpr ⟨hmem, (keepExchange_iff exc).mpr hkeep⟩
  · intro exc hmem
    exact (keepExchange_iff exc).mp (List.mem_filter.mp hmem).2

/-- Witness for `C9_clear_keeps_structural_only` on a concrete market: the
structural self-consumption exchange and the non-electricity exchange
survive, and everything surviving is structural or non-electricity (the
coal input is gone). -/

theorem C9_witness :
    excSelf ∈ (delete_electricity_inputs_from_market dsHVMarket).exchanges ∧
    excTransport ∈ (delete_electricity_inputs_from_market dsHVMarket).exchanges ∧
    (∀ exc ∈ (delete_electricity_inputs_from_market dsHVMarket).exchanges,
      isSelfConsumptionExchange exc ∨ isVoltageTransformationExchange exc ∨
        ¬ isKilowattHourExchange exc) :=
  ⟨(C9_clear_keeps_structural_only dsHVMarket).2.2.1 excSelf
      (by simp [dsHVMarket]) (by decide),
   (C9_clear_keeps_structural_only dsHVMarket).2.2.1 excTransport
      (by simp [dsHVMarket]) (by decide),
   (C9_clear_keeps_structural_only dsHVMarket).2.2.2⟩

/-! ### Claims C10 and C1 -/

theorem findSame_empty_of_errors (self : ElectricityModel) (tech loc : String)
    (e1 e2 : String) (h1 : sameLocTryBody1 self tech loc = Except.error e1)
    (h2 : sameLocTryBody2 self tech loc = Except.error e2) :
    find_ecoinvent_electricity_datasets_in_same_ecoinvent_location
      self tech loc = [] := by
  rw [find_ecoinvent_electricity_datasets_in_same_ecoinvent_location, h1]
  dsimp only
  rw [h2]

theorem findRemind_empty_of_error (self : ElectricityModel) (tech loc : String)
    (e : String) (h : remindLocTryBody self tech loc = Except.error e) :
    find_ecoinvent_electricity_datasets_in_remind_location self tech loc = [] := by
  rw [find_ecoinvent_electricity_datasets_in_remind_location, h]

theorem sameLocTryBody1_error_of_no_attr (self : ElectricityModel)
    (tech loc : String) (h : dictGet? self.rmdAttrs "rev_market_labels" = none) :
    sameLocTryBody1 self tech loc = Except.error "AttributeError" := by
  have hga : getattr? self.rmdAttrs "rev_market_labels" =
      Except.error "AttributeError" := by
    rw [getattr?, h]
  rw [sameLocTryBody1, hga]
  rfl

theorem sameLocTryBody2_error_of_no_attr (self : ElectricityModel)
    (tech loc : String) (h : dictGet? self.rmdAttrs "rev_market_labels" = none) :
    sameLocTryBody2 self tech loc = Except.error "AttributeError" := by
  have hga : getattr? self.rmdAttrs "rev_market_labels" =
      Except.error "AttributeError" := by
    rw [getattr?, h]
  rw [sameLocTryBody2, hga]
  rfl

theorem remindLocTryBody_error_of_no_attr (self : ElectricityModel)
    (tech loc : String) (h : dictGet? self.rmdAttrs "rev_market_labels" = none) :
    remindLocTryBody self tech loc = Except.error "AttributeError" := by
  have hga : getattr? self.rmdAttrs "rev_market_labels" =
      Except.error "AttributeError" := by
    rw [getattr?, h]
  rw [remindLocTryBody, hga]
  rfl

/-- Claim C10 (confirmed): the bare `except` branches make both the
exact-location and the sibling-region searches return `[]` whenever their
bodies raise; a `RemindDataCollection` exposes
`rev_electricity_market_labels` but no `rev_market_labels`, so on any
`Electricity` instance over such an object both searches (and the global
tier, which is the exact-location search at `GLO`) return `[]` for every
input — every technology falls through all three tiers unresolved. -/

theorem C10_searches_always_empty :
    (∀ (self : ElectricityModel) (tech loc e1 e2 : String),
      sameLocTryBody1 self tech loc = Except.error e1 →
      sameLocTryBody2 self tech loc = Except.error e2 →
      find_ecoinvent_electricity_datasets_in_same_ecoinvent_location
        self tech loc = []) ∧
    (∀ (self : ElectricityModel) (tech loc e : String),
      remindLocTryBody self tech loc = Except.error e →
      find_ecoinvent_electricity_datasets_in_remind_location self tech loc = []) ∧
    (∀ (self : ElectricityModel) (tech loc : String),
      dictGet? self.rmdAttrs "rev_market_labels" = none →
      find_ecoinvent_electricity_datasets_in_same_ecoinvent_location
        self tech loc = [] ∧
      find_ecoinvent_electricity_datasets_in_remind_location self tech loc = [] ∧
      select_suppliers (supplier_search self tech loc) =
        ([], [SupplierTier.exactLoc, SupplierTier.siblingRegion,
          SupplierTier.globalLoc])) ∧
    (∀ ml el em : List (String × String),
      dictGet? (remindDataCollectionAttrs ml el em) "rev_market_labels" = none ∧
      dictGet? (remindDataCollectionAttrs ml el em)
        "rev_electricity_market_labels" = some (PyVal.strDict (revDict ml))) := by
  refine ⟨findSame_empty_of_errors, findRemind_empty_of_error, ?_, ?_⟩
  · intro self tech loc h
    have hsame := findSame_empty_of_errors self tech loc _ _
      (sameLocTryBody1_error_of_no_attr self tech loc h)
      (sameLocTryBody2_error_of_no_attr self tech loc h)
    have hglo := findSame_empty_of_errors self tech "GLO" _ _
      (sameLocTryBody1_error_of_no_attr self tech "GLO" h)
      (sameLocTryBody2_error_of_no_attr self tech "GLO" h)
    have hrem := findRemind_empty_of_error self tech loc _
      (remindLocTryBody_error_of_no_attr self tech loc h)
    refine ⟨hsame, hrem, ?_⟩
    have e1 : supplier_search self tech loc SupplierTier.exactLoc = [] := hsame
    have e2 : supplier_search self tech loc SupplierTier.siblingRegion = [] := hrem
    have e3 : supplier_search self tech loc SupplierTier.globalLoc = [] := hglo
    simp [select_suppliers, e1, e2, e3]
  · intro ml el em
    exact ⟨rfl, rfl⟩

/-- Witness for `C10_searches_always_empty` on the concrete instance
`selfReal`, whose `rmd` carries exactly the constructor-assigned attributes:
both searches return `[]` for the technology `Coal` at `DE` even though the
database holds a matching record, and the tier selection falls through all
three tiers with an empty result. -/

theorem C10_witness :
    find_ecoinvent_electricity_datasets_in_same_ecoinvent_location
      selfReal "Coal" "DE" = [] ∧
    find_ecoinvent_electricity_datasets_in_remind_location
      selfReal "Coal" "DE" = [] ∧
    select_suppliers (supplier_search selfReal "Coal" "DE") =
      ([], [SupplierTier.exactLoc, SupplierTier.siblingRegion,
        SupplierTier.globalLoc]) :=
  C10_searches_always_empty.2.2.1 selfReal "Coal" "DE" rfl

/-- Claim C1 is violated by the code (code bug): the exchange-assembly block
of `add_new_datasets_to_electricity_market` (source lines 191-211) is
commented out, so whenever the function returns at all it returns the
dataset with its exchange list exactly as it came in — no technosphere
exchange is appended for any supplier record; moreover, on a real
`RemindDataCollection` the function raises `AttributeError` at
`self.rmd.markets` (the attribute is named `electricity_markets`) before
reaching the search loop. -/

theorem C1_no_exchange_appended :
    (∀ (self : ElectricityModel) (ds : MarketDs) (techs : List String)
      (out : MarketDs) (datasets : List (String × List Dataset)),
      add_new_datasets_to_electricity_market self ds techs =
        Except.ok (out, datasets) →
      out.exchanges = ds.exchanges) ∧
    add_new_datasets_to_electricity_market selfReal dsHVMarket ["Coal"] =
      Except.error "AttributeError" := by
  constructor
  · intro self ds techs out datasets h
    rw [add_new_datasets_to_electricity_market] at h
    cases hb : build_candidate_datasets self ds techs with
    | ok r =>
      rw [hb] at h
      simp only [Except.map] at h
      have hpair : (ds, r) = (out, datasets) := Except.ok.inj h
      have hout : ds = out := congrArg Prod.fst hpair
      rw [← hout]
    | error e =>
      rw [hb] at h
      simp only [Except.map] at h
      exact Except.noConfusion h
  · rfl

/-- Witness for `C1_no_exchange_appended` on the hypothetical instance
`selfOk` (attributes named as the code expects): the pipeline resolves the
region, finds a nonzero-share technology `Coal` with one supplier record,
and still returns the market with its exchange list unchanged — where the
claim demands an appended exchange of amount `1/1`. -/

theorem C1_witness : dsHVMarket.exchanges = dsHVMarket.exchanges :=
  C1_no_exchange_appended.1 selfOk dsHVMarket ["Coal"] dsHVMarket
    [("Coal", [coalDs])] rfl

end RmndLca
